import Mathlib

/-!
Shallow embedding of the `birddog` python package (files
`src/birddog/models.py` and `src/birddog/client.py`).

Network I/O is modelled by explicit environment parameters: a REST request
environment `RestEnv` mapping each issued request to either an HTTP failure
(`none`, standing for an `httpx.HTTPError` raised by `raise_for_status` or by
the transport) or the decoded response body.  Response bodies are modelled by
`Content`: the python code decodes each body with `json.loads`, falling back
to the raw bytes when decoding fails, so the environment directly supplies
the post-decode value (`jsonDict` for a decoded JSON object whose values are
strings — the only shape the endpoints used here produce — or `raw` for a
body that is not valid JSON).

Stateful clients (`ClientBase`, `ApiClient`, `AuthClient`) are embedded as
structures with explicit state passing; each operation returns the python
result (`Except PyError _` for a value or a raised exception), the successor
state, and a trace of the externally visible `Event`s it performed (HTTP
requests and session teardown), in order.
-/

namespace Birddog

/-- Python exceptions distinguished by the embedded code paths. -/
inductive PyError where
  | httpError       -- httpx.HTTPError (raise_for_status / transport failure)
  | keyError        -- KeyError from a dict subscript
  | attributeError  -- AttributeError (getattr miss, attribute access on None)
  | assertionError  -- AssertionError from an `assert` statement
  | typeError       -- TypeError (e.g. subscripting bytes with a str key)
deriving DecidableEq, Repr

/-- OperationMode enum from models.py: members `encode` and `decode`. -/
inductive OperationMode where
  | encode
  | decode
deriving DecidableEq, Repr

/-- Member name of an OperationMode, as python's `.name`. -/
def OperationMode.name : OperationMode → String
  | .encode => "encode"
  | .decode => "decode"

/-- Embeds `getattr(models.OperationMode, s)`: the member named `s`, or
`none` when no member has that name (python raises AttributeError). -/
def OperationMode.fromName? : String → Option OperationMode
  | "encode" => some .encode
  | "decode" => some .decode
  | _ => none

/-- AudioOutput enum from models.py. -/
inductive AudioOutput where
  | DecodeMain
  | DecodeComms
  | DecodeLoop
deriving DecidableEq, Repr

/-- Member name of an AudioOutput, as python's `.name`. -/
def AudioOutput.name : AudioOutput → String
  | .DecodeMain => "DecodeMain"
  | .DecodeComms => "DecodeComms"
  | .DecodeLoop => "DecodeLoop"

/-- VideoOutput enum from models.py. -/
inductive VideoOutput where
  | sdi
  | hdmi
  | LowLatency
  | NormalMode
deriving DecidableEq, Repr

/-- Member name of a VideoOutput, as python's `.name`. -/
def VideoOutput.name : VideoOutput → String
  | .sdi => "sdi"
  | .hdmi => "hdmi"
  | .LowLatency => "LowLatency"
  | .NormalMode => "NormalMode"

/-- AudioOutputSetup dataclass from models.py. -/
structure AudioOutputSetup where
  input_gain : Int
  output_gain : Int
  output_select : AudioOutput
deriving DecidableEq, Repr

/-- A value in a form-data dict: python mixes `str` and `int` values in the
dict built by `DeviceSettings.to_form_data`. -/
inductive FormValue where
  | s (v : String)
  | i (v : Int)
deriving DecidableEq, Repr

/-- DeviceSettings dataclass from models.py. -/
structure DeviceSettings where
  operation_mode : OperationMode
  video_output : VideoOutput
  audio_setup : AudioOutputSetup
deriving DecidableEq, Repr

/-- Embeds `DeviceSettings.to_form_data`: the five-field form dict posted to
the `videoset` endpoint, in the insertion order of the python dict literal. -/
def DeviceSettings.to_form_data (s : DeviceSettings) : List (String × FormValue) :=
  [ ("mode", .s s.operation_mode.name),
    ("vid12g_loop_if", .s s.video_output.name),
    ("AnalogAudioInGain", .i s.audio_setup.input_gain),
    ("AnalogAudioOutGain", .i s.audio_setup.output_gain),
    ("AnalogAudiooutputselect", .s s.audio_setup.output_select.name) ]

/-- NdiSource dataclass from models.py (the `format` display helper is
presentation-only and not embedded).  python declares `is_current` as
`Optional[bool] = False` but only ever stores booleans in it, so it is
embedded as `Bool`. -/
structure NdiSource where
  name : String
  address : Option String := none
  index : Option Int := none
  is_current : Bool := false
deriving DecidableEq, Repr

/-- Decoded body of a REST response, after `ApiClient.get` / `ApiClient.post`
has applied `json.loads` with fallback to the raw bytes: either a decoded
JSON object (an association list of string keys to string values, the only
JSON shape the endpoints used here return) or the raw body. -/
inductive Content where
  | jsonDict (d : List (String × String))
  | raw (b : String)
deriving DecidableEq, Repr

/-- A REST request as issued by `ApiClient.get` / `ApiClient.post`: the
endpoint, and for a POST the JSON payload (an association list). -/
inductive RestReq where
  | get (endpoint : String)
  | post (endpoint : String) (body : List (String × String))
deriving DecidableEq, Repr

/-- Environment supplying the device's response to each REST request:
`none` models an HTTP-level failure (`httpx.HTTPError`), `some c` the
successfully decoded response content. -/
def RestEnv : Type := RestReq → Option Content

/-- Embeds `ApiClient.get`: issue a GET, raise `httpx.HTTPError` on failure
(`raise_for_status` or transport), otherwise return the decoded content. -/
def restGet (env : RestEnv) (endpoint : String) : Except PyError Content :=
  match env (.get endpoint) with
  | none => .error .httpError
  | some c => .ok c

/-- Embeds `ApiClient.post`: issue a POST with a JSON payload, raise
`httpx.HTTPError` on failure, otherwise return the decoded content. -/
def restPost (env : RestEnv) (endpoint : String) (body : List (String × String)) :
    Except PyError Content :=
  match env (.post endpoint body) with
  | none => .error .httpError
  | some c => .ok c

/-- Embeds `ApiClient.get_hostname`: GET `hostname`.  The source decodes a
bytes body to `str` and returns a JSON body unchanged; only success or
failure of this call is consumed by the callers embedded here, so the
decoded content is returned as-is. -/
def get_hostname (env : RestEnv) : Except PyError Content :=
  restGet env "hostname"

/-- Embeds `ApiClient.reboot`: fetch the hostname first (errors propagate),
then GET `reboot` inside `try/except httpx.HTTPError: pass` — an HTTP error
from the reboot trigger itself is suppressed. -/
def reboot (env : RestEnv) : Except PyError Unit :=
  match get_hostname env with
  | .error e => .error e
  | .ok _ =>
    match restGet env "reboot" with
    | .error .httpError => .ok ()
    | .error e => .error e
    | .ok _ => .ok ()

/-- Embeds `ApiClient.restart`: fetch the hostname first (errors propagate),
then GET `restart` inside `try/except httpx.HTTPError: raise` — an HTTP
error from the restart trigger is re-raised. -/
def restart (env : RestEnv) : Except PyError Unit :=
  match get_hostname env with
  | .error e => .error e
  | .ok _ =>
    match restGet env "restart" with
    | .error e => .error e
    | .ok _ => .ok ()

/-- Embeds `ApiClient.get_operation_mode`: GET `operationmode`; for a JSON
object take the `mode` key (KeyError propagates when absent), for raw bytes
decode them as the mode name; then `getattr(models.OperationMode, mode)`,
raising AttributeError when the name matches no member. -/
def get_operation_mode (env : RestEnv) : Except PyError OperationMode :=
  match restGet env "operationmode" with
  | .error e => .error e
  | .ok content =>
    let modeE : Except PyError String :=
      match content with
      | .jsonDict d =>
        match d.lookup "mode" with
        | some m => .ok m
        | none => .error .keyError
      | .raw b => .ok b
    match modeE with
    | .error e => .error e
    | .ok m =>
      match OperationMode.fromName? m with
      | some om => .ok om
      | none => .error .attributeError

/-- Embeds `ApiClient.get_source`: GET `connectTo` and build an NdiSource
from the `sourceName` key.  Subscripting a raw (bytes) body with a string
key raises TypeError; a missing key raises KeyError. -/
def get_source (env : RestEnv) : Except PyError NdiSource :=
  match restGet env "connectTo" with
  | .error e => .error e
  | .ok (.jsonDict d) =>
    match d.lookup "sourceName" with
    | some n => .ok { name := n }
    | none => .error .keyError
  | .ok (.raw _) => .error .typeError

/-- Embeds the `for i, key in enumerate(content.keys())` loop body of
`ApiClient.list_sources`, with the enumeration counter `i` made an explicit
argument: each key/value pair of the source map becomes an NdiSource with
the running index, and `is_current` set by name equality with the current
source's name. -/
def mkSourceList (currentName : String) : List (String × String) → Int → List NdiSource
  | [], _ => []
  | (k, v) :: rest, i =>
    { name := k, address := some v, index := some i, is_current := k == currentName }
      :: mkSourceList currentName rest (i + 1)

/-- Embeds `ApiClient.list_sources`: fetch the current source, then GET
`List` (a JSON object mapping source name to address) and enumerate it.
Calling `.keys()` on a raw bytes body raises AttributeError. -/
def list_sources (env : RestEnv) : Except PyError (List NdiSource) :=
  match get_source env with
  | .error e => .error e
  | .ok cur =>
    match restGet env "List" with
    | .error e => .error e
    | .ok (.jsonDict d) => .ok (mkSourceList cur.name d 0)
    | .ok (.raw _) => .error .attributeError

/-- The argument accepted by `ApiClient.set_source`: a source name, an
NdiSource value, or an integer index into the current listing. -/
inductive SourceArg where
  | str (s : String)
  | src (s : NdiSource)
  | int (i : Int)
deriving DecidableEq, Repr

/-- Embeds `ApiClient.set_source`.  An integer argument is resolved through
`list_sources` via the dict `{src.index: src}` (first-match lookup is
equivalent: the indices are pairwise distinct); a missing index raises
KeyError before any POST.  The resolved name is POSTed to `connectTo` and
the literal `success` acknowledgement is asserted.  The second component
records the POST body when (and only when) a POST was issued. -/
def set_source (env : RestEnv) (arg : SourceArg) :
    Except PyError Unit × Option (List (String × String)) :=
  let resolved : Except PyError String :=
    match arg with
    | .int i =>
      match list_sources env with
      | .error e => .error e
      | .ok srcs =>
        match srcs.find? (fun s => s.index == some i) with
        | none => .error .keyError
        | some s => .ok s.name
    | .src s => .ok s.name
    | .str s => .ok s
  match resolved with
  | .error e => (.error e, none)
  | .ok n =>
    match restPost env "connectTo" [("sourceName", n)] with
    | .error e => (.error e, some [("sourceName", n)])
    | .ok c =>
      (if c = Content.raw "success" then .ok () else .error .assertionError,
       some [("sourceName", n)])

/-- Externally visible effect of a client operation: an HTTP request issued
on the shared session, or the teardown (`aclose`) of a session.  Sessions
are identified by numeric ids so that sharing between a client and its
companion is by identity, as in the source. -/
inductive Event where
  | aclose (sid : Nat)                                        -- session.aclose()
  | loginPost (password : String)                             -- POST login (auth form)
  | logoutPost                                                -- POST logout
  | webGet (url : String)                                     -- AuthClient.get
  | webPost (url : String) (data : Option (List (String × FormValue)))  -- AuthClient.post
deriving DecidableEq, Repr

/-- State of `ClientBase` from client.py.  The `urlsplit`-based string
normalization of `host_url` is abstracted: the base URL is carried as the
host name plus an optional port (the scheme defaulting and path/query
stripping of `__init__` are not load-bearing for any embedded operation).
`session` holds the id of the bound HTTP session, if any. -/
structure ClientBase where
  host : String
  port : Option Nat
  session : Option Nat
  owns_session : Bool
  is_open : Bool
deriving DecidableEq, Repr

/-- Embeds `ClientBase.__init__`: store the (normalized) base URL and the
optionally supplied session; `_owns_session` is true exactly when no session
was supplied; the client starts closed. -/
def ClientBase.init (host : String) (port : Option Nat) (session : Option Nat) : ClientBase :=
  { host := host, port := port, session := session,
    owns_session := session.isNone, is_open := false }

/-- Embeds `ClientBase.get_session`: return the bound session, creating one
(with the supplied fresh id) and taking ownership when none is bound yet. -/
def ClientBase.get_session (c : ClientBase) (fresh : Nat) : Nat × ClientBase :=
  match c.session with
  | some s => (s, c)
  | none => (fresh, { c with session := some fresh, owns_session := true })

/-- Embeds `ClientBase.format_url`: base URL followed by the `/`-joined sub
paths (the port is not displayed; it is not load-bearing for any claim). -/
def ClientBase.format_url (c : ClientBase) (paths : List String) : String :=
  c.host ++ "/" ++ String.intercalate "/" paths

/-- Embeds `ClientBase.open`: mark the client open. -/
def ClientBase.«open» (c : ClientBase) : ClientBase :=
  { c with is_open := true }

/-- Embeds `ClientBase.close`.  In the source, when a session is bound and
owned, `self.session = None` runs first, then `await session.aclose()`, and
only afterwards `self.is_open = False`; there is no `try/finally`, so when
`aclose` raises (modelled by `acloseFails`) the exception propagates with
the open flag still set (but the session reference already dropped). -/
def ClientBase.close (c : ClientBase) (acloseFails : Bool) :
    Except PyError Unit × ClientBase × List Event :=
  match c.session with
  | some s =>
    if c.owns_session then
      let c1 := { c with session := none }
      if acloseFails then (.error .httpError, c1, [.aclose s])
      else (.ok (), { c1 with is_open := false }, [.aclose s])
    else (.ok (), { c with is_open := false }, [])
  | none => (.ok (), { c with is_open := false }, [])

/-- State of `AuthClient` from client.py.  The `api_client` back reference
is only consulted by `get_settings` to fetch the audio setup; that fetch is
supplied as an explicit argument to the settings operations below, so the
back reference itself is not part of the embedded state.  The `settings`
cache field is carried verbatim. -/
structure AuthClient where
  base : ClientBase
  password : String
  settings : Option DeviceSettings
  logged_in : Bool
deriving DecidableEq, Repr

/-- Embeds `AuthClient.__init__`: base initialization, then the port (if
any) is stripped from the netloc; the password defaults to `birddog`; not
logged in initially. -/
def AuthClient.init (host : String) (session : Option Nat)
    (password : String := "birddog") : AuthClient :=
  { base := { ClientBase.init host none session with port := none },
    password := password, settings := none, logged_in := false }

/-- Embeds `AuthClient._login`: POST the password to the `login` endpoint;
`raise_for_status` failure (modelled by `loginOk = false`) propagates and
`_logged_in` is only set afterwards, on success. -/
def AuthClient.login (a : AuthClient) (fresh : Nat) (loginOk : Bool) :
    Except PyError Unit × AuthClient × List Event :=
  let (_, b1) := a.base.get_session fresh
  let a1 := { a with base := b1 }
  if loginOk then (.ok (), { a1 with logged_in := true }, [.loginPost a.password])
  else (.error .httpError, a1, [.loginPost a.password])

/-- Embeds `AuthClient._logout`: POST to the `logout` endpoint; on HTTP
failure (modelled by `logoutOk = false`) the error propagates and
`_logged_in` is left set; it is cleared only on success. -/
def AuthClient.logout (a : AuthClient) (fresh : Nat) (logoutOk : Bool) :
    Except PyError Unit × AuthClient × List Event :=
  let (_, b1) := a.base.get_session fresh
  let a1 := { a with base := b1 }
  if logoutOk then (.ok (), { a1 with logged_in := false }, [Event.logoutPost])
  else (.error .httpError, a1, [Event.logoutPost])

/-- Embeds `AuthClient.open`: `super().open()` (mark open) then `_login()`;
a login failure propagates out of `open`. -/
def AuthClient.«open» (a : AuthClient) (fresh : Nat) (loginOk : Bool) :
    Except PyError Unit × AuthClient × List Event :=
  let a1 := { a with base := a.base.«open» }
  a1.login fresh loginOk

/-- Embeds `AuthClient.get`: `assert self._logged_in` runs first — when not
logged in, AssertionError is raised before any URL formatting, session
acquisition or request.  Otherwise the GET is issued; `respond` supplies the
response text, `none` modelling an HTTP failure from `raise_for_status`. -/
def AuthClient.get (a : AuthClient) (paths : List String) (fresh : Nat)
    (respond : Option String) : Except PyError String × AuthClient × List Event :=
  if a.logged_in then
    let url := a.base.format_url paths
    let (_, b1) := a.base.get_session fresh
    let a1 := { a with base := b1 }
    match respond with
    | none => (.error .httpError, a1, [.webGet url])
    | some t => (.ok t, a1, [.webGet url])
  else (.error .assertionError, a, [])

/-- Embeds `AuthClient.post`: `assert self._logged_in` runs first — when not
logged in, AssertionError is raised before any URL formatting, session
acquisition or request.  Otherwise the POST is issued with the optional
form-encoded data; `respond` supplies the response text, `none` modelling an
HTTP failure. -/
def AuthClient.post (a : AuthClient) (paths : List String)
    (data : Option (List (String × FormValue))) (fresh : Nat)
    (respond : Option String) : Except PyError String × AuthClient × List Event :=
  if a.logged_in then
    let url := a.base.format_url paths
    let (_, b1) := a.base.get_session fresh
    let a1 := { a with base := b1 }
    match respond with
    | none => (.error .httpError, a1, [.webPost url data])
    | some t => (.ok t, a1, [.webPost url data])
  else (.error .assertionError, a, [])

/-- Embeds `AuthClient.close`: `try: if self._logged_in: await self._logout()
finally: ... await super().close()`.  The `finally` block always runs the
base close; a logout error propagates afterwards unless the base close
itself raises, in which case (python semantics) the `finally` exception
replaces it.  The write to the otherwise-unused `login_cookie` attribute is
not embedded. -/
def AuthClient.close (a : AuthClient) (fresh : Nat) (logoutOk : Bool)
    (acloseFails : Bool) : Except PyError Unit × AuthClient × List Event :=
  let (r1, a1, e1) :=
    if a.logged_in then a.logout fresh logoutOk
    else (.ok (), a, [])
  let (r2, b2, e2) := a1.base.close acloseFails
  let a2 := { a1 with base := b2 }
  let r : Except PyError Unit :=
    match r2 with
    | .error e => .error e
    | .ok () => r1
  (r, a2, e1 ++ e2)

/-- State of `ApiClient` from client.py: the REST client plus the optional
`auth_client` companion. -/
structure ApiClient where
  base : ClientBase
  auth_client : Option AuthClient
deriving DecidableEq, Repr

/-- Embeds `ApiClient.__init__`: base initialization, then the netloc's port
is replaced by `8080`; no companion yet. -/
def ApiClient.init (host : String) (session : Option Nat) : ApiClient :=
  { base := { ClientBase.init host none session with port := some 8080 },
    auth_client := none }

/-- Embeds `ApiClient.open`: when no companion exists, first ensure a session
is bound (creating one with the fresh id), then construct an `AuthClient`
on this client's `host_url` (whose port the AuthClient constructor strips)
sharing this client's session by reference; finally `super().open()`. -/
def ApiClient.«open» (c : ApiClient) (fresh : Nat) : ApiClient :=
  let c1 : ApiClient :=
    match c.auth_client with
    | some _ => c
    | none =>
      let b1 :=
        match c.base.session with
        | none => (c.base.get_session fresh).2
        | some _ => c.base
      { base := b1, auth_client := some (AuthClient.init b1.host b1.session) }
  { c1 with base := c1.base.«open» }

/-- Embeds `ApiClient._proxy_through_auth_client`.  The source reads
`client = self.auth_client` and immediately evaluates `client.is_open`: when
no companion exists this raises AttributeError (attribute access on None)
before anything else.  With a companion, it is opened (hence logged in)
first when not already open, and only then is the named method dispatched on
it — the stringly `getattr` dispatch is embedded as the explicit delegate
function `m`. -/
def ApiClient.proxy_through_auth_client {α : Type}
    (c : ApiClient) (fresh : Nat) (loginOk : Bool)
    (m : AuthClient → Except PyError α × AuthClient × List Event) :
    Except PyError α × ApiClient × List Event :=
  match c.auth_client with
  | none => (.error .attributeError, c, [])
  | some ac =>
    let (openRes, ac1, ev1) :=
      if ac.base.is_open then (.ok (), ac, [])
      else ac.«open» fresh loginOk
    match openRes with
    | .error e => (.error e, { c with auth_client := some ac1 }, ev1)
    | .ok () =>
      let (r, ac2, ev2) := m ac1
      (r, { c with auth_client := some ac2 }, ev1 ++ ev2)

/-- Embeds `ApiClient.close`: read the companion, and inside `try`, when it
exists, drop the reference and close it if open; the `finally` block always
runs `super().close()` on the client's own state, so the client's session
teardown happens even when the companion's close (e.g. its logout) raised;
that error then propagates afterwards (python semantics: an exception raised
in the `finally` block would replace it). -/
def ApiClient.close (c : ApiClient) (fresh : Nat) (logoutOk : Bool)
    (acAcloseFails : Bool) (ownAcloseFails : Bool) :
    Except PyError Unit × ApiClient × List Event :=
  let (r1, c1, e1) :=
    match c.auth_client with
    | none => (Except.ok (), c, ([] : List Event))
    | some ac =>
      let c0 := { c with auth_client := none }
      if ac.base.is_open then
        let (r, _, ev) := ac.close fresh logoutOk acAcloseFails
        (r, c0, ev)
      else (.ok (), c0, [])
  let (r2, b2, e2) := c1.base.close ownAcloseFails
  let c2 := { c1 with base := b2 }
  let r : Except PyError Unit :=
    match r2 with
    | .error e => .error e
    | .ok () => r1
  (r, c2, e1 ++ e2)

/-- Embeds `AuthClient.refresh_sources`: POST `{'add_new_sources':
'new_sources'}` form-encoded to the `videoset` page. -/
def AuthClient.refresh_sources (a : AuthClient) (fresh : Nat)
    (respond : Option String) : Except PyError String × AuthClient × List Event :=
  a.post ["videoset"] (some [("add_new_sources", .s "new_sources")]) fresh respond

/-- Checked state of the four radio inputs (`encode`, `decode`, `sdi`,
`hdmi`) inside the `mod_sel` form of the `videoset` HTML page, as exposed to
the scraping loop of `AuthClient.get_settings` (the BeautifulSoup traversal
is abstracted to these four booleans; a well-formed page containing the four
inputs is assumed, as the source does by unconditional attribute access). -/
structure VideosetPage where
  encode_checked : Bool
  decode_checked : Bool
  sdi_checked : Bool
  hdmi_checked : Bool
deriving DecidableEq, Repr

/-- Embeds the scraping half of `AuthClient.get_settings`: the loops over
`['encode', 'decode']` and `['sdi', 'hdmi']` keep the last checked input
(later iterations overwrite), the asserts reject a page with no checked
option in a group, and each chosen id is resolved through `getattr` on its
enum.  The audio setup (fetched over REST in the source) is supplied as an
argument; the composed DeviceSettings snapshot is the result. -/
def scrape_settings (page : VideosetPage) (audio : AudioOutputSetup) :
    Except PyError DeviceSettings :=
  let op_mode : Option OperationMode :=
    let o : Option OperationMode := none
    let o := if page.encode_checked then some .encode else o
    if page.decode_checked then some .decode else o
  match op_mode with
  | none => .error .assertionError
  | some om =>
    let vout : Option VideoOutput :=
      let v : Option VideoOutput := none
      let v := if page.sdi_checked then some .sdi else v
      if page.hdmi_checked then some .hdmi else v
    match vout with
    | none => .error .assertionError
    | some vo =>
      .ok { operation_mode := om, video_output := vo, audio_setup := audio }

/-- Embeds `AuthClient.set_operation_mode`: `get_settings()` (scrape plus
REST-fetched audio), set `settings.operation_mode = mode`, and hand
`settings.to_form_data()` to `post('videoset', data=form_data)`.  The result
is the form that is POSTed (the POST's own outcome is independent of the
form's content). -/
def AuthClient.set_operation_mode (page : VideosetPage)
    (audio : AudioOutputSetup) (mode : OperationMode) :
    Except PyError (List (String × FormValue)) :=
  match scrape_settings page audio with
  | .error e => .error e
  | .ok settings => .ok (DeviceSettings.to_form_data { settings with operation_mode := mode })

/-- Embeds `AuthClient.set_video_output`: `get_settings()`, set
`settings.video_output = video_output`, and POST the full
`settings.to_form_data()` form.  The result is the form that is POSTed. -/
def AuthClient.set_video_output (page : VideosetPage)
    (audio : AudioOutputSetup) (video_output : VideoOutput) :
    Except PyError (List (String × FormValue)) :=
  match scrape_settings page audio with
  | .error e => .error e
  | .ok settings => .ok (DeviceSettings.to_form_data { settings with video_output := video_output })

/-- A concrete REST environment where only the `hostname` endpoint answers. -/
def envHostnameOnly : RestEnv := fun r =>
  match r with
  | .get "hostname" => some (.raw "birddog-a200")
  | _ => none

/-- A concrete REST environment where no endpoint answers. -/
def envAllDown : RestEnv := fun _ => none

/-- A concrete REST environment answering `operationmode` with a JSON object
whose mode string names no OperationMode member. -/
def envBadMode : RestEnv := fun r =>
  match r with
  | .get "operationmode" => some (.jsonDict [("mode", "turbo")])
  | _ => none

/-- A concrete REST environment with three NDI sources, the current one
being `CamB`, and a `connectTo` POST acknowledged with `success`. -/
def envSources : RestEnv := fun r =>
  match r with
  | .get "connectTo" => some (.jsonDict [("sourceName", "CamB")])
  | .get "List" => some (.jsonDict
      [("CamA", "10.0.0.1"), ("CamB", "10.0.0.2"), ("CamC", "10.0.0.3")])
  | .post "connectTo" _ => some (.raw "success")
  | _ => none

/-- A concrete delegate standing for one proxied AuthClient method
(`refresh_sources` with fixed scheduling arguments), used to exercise the
proxy at a concrete input. -/
def refreshDelegate : AuthClient → Except PyError String × AuthClient × List Event :=
  fun a => a.refresh_sources 0 (some "ok")

/-- A concrete unified-client state whose companion Web Backend is open and
logged in over a shared (id 0) session that the unified client itself owns. -/
def apiClientWithOpenCompanion : ApiClient :=
  { base := ClientBase.mk "h" (some 8080) (some 0) true true,
    auth_client := some
      { base := ClientBase.mk "h" none (some 0) false true,
        password := "birddog", settings := none, logged_in := true } }

/-!  Theorems.  Each claim of the specification is settled by one theorem
below (plus a witness or counterexample where applicable). -/

/-- Helper: a successful `getattr(OperationMode, m)` pins `m` to the member's
name. -/
theorem OperationMode.fromName_eq_name (m : String) (om : OperationMode)
    (h : OperationMode.fromName? m = some om) : m = om.name := by
  unfold OperationMode.fromName? at h
  split at h
  · injection h with h; subst h; rfl
  · injection h with h; subst h; rfl
  · exact Option.noConfusion h

/-- C2 (amended): `close()` releases the session only when it was created
internally — a borrowed session is never released — and an owned session is
released exactly once (the reference is dropped before the release, so a
second close performs no release even after a failed one); the open flag is
cleared whenever the release succeeds or none is needed, but when the
release itself raises, the error propagates with the open flag left as it
was. -/
theorem ClientBase.close_ownership (c : ClientBase) (f1 f2 : Bool) :
    (c.owns_session = false → (c.close f1).2.2 = [] ∧ (c.close f1).2.1.is_open = false) ∧
    ((c.close f1).1 = .ok () → (c.close f1).2.1.is_open = false) ∧
    (∀ s, c.session = some s → c.owns_session = true →
      (c.close f1).2.2 = [.aclose s] ∧ (c.close f1).2.1.session = none ∧
      ((c.close f1).2.1.close f2).2.2 = []) ∧
    (c.session = none → (c.close f1).2.2 = [] ∧ (c.close f1).2.1.is_open = false) ∧
    (∀ s, c.session = some s → c.owns_session = true → f1 = true →
      (c.close f1).1 = .error .httpError ∧ (c.close f1).2.1.is_open = c.is_open) := by
  refine ⟨fun ho => ?_, fun hok => ?_, fun s hs ho => ?_, fun hs => ?_, fun s hs ho hf => ?_⟩
  · cases hs : c.session <;> simp [ClientBase.close, hs, ho]
  · cases hs : c.session with
    | none => simp [ClientBase.close, hs]
    | some s =>
      by_cases ho : c.owns_session <;> cases f1 <;>
        simp_all [ClientBase.close, hs, ho]
  · cases f1 <;> simp [ClientBase.close, hs, ho]
  · simp [ClientBase.close, hs]
  · subst hf; simp [ClientBase.close, hs, ho]

/-- C2 witness: a client over a caller-supplied session releases nothing on
close, and an internally owned session is released exactly once across two
closes. -/
theorem ClientBase.close_ownership_witness :
    ((ClientBase.mk "h" none (some 5) false true).close false).2.2 = [] ∧
    ((ClientBase.mk "h" none (some 5) true true).close false).2.2 = [.aclose 5] ∧
    (((ClientBase.mk "h" none (some 5) true true).close false).2.1.close false).2.2 = [] :=
  ⟨(ClientBase.close_ownership (ClientBase.mk "h" none (some 5) false true) false false).1 rfl
      |>.1,
   ((ClientBase.close_ownership (ClientBase.mk "h" none (some 5) true true) false false).2.2.1
      5 rfl rfl).1,
   ((ClientBase.close_ownership (ClientBase.mk "h" none (some 5) true true) false false).2.2.1
      5 rfl rfl).2.2⟩

/-- C2 counterexample: when the client owns its session and releasing it
raises, `close()` propagates the error and the open flag is NOT cleared —
refuting the claim that close always clears the open state even if the
release fails partway. -/
theorem ClientBase.close_open_flag_counterexample :
    ((ClientBase.mk "h" none (some 0) true true).close true).1 = .error .httpError ∧
    ((ClientBase.mk "h" none (some 0) true true).close true).2.1.is_open = true := by
  constructor <;> rfl

/-- C3: opening a not-yet-logged-in Web Backend performs the login and marks
the instance logged in exactly when the login succeeds; after a failed login
the instance is not marked authenticated and is unusable — both request
helpers fail their asserted precondition without touching the network. -/
theorem AuthClient.open_login_states (a : AuthClient) (fresh : Nat)
    (h : a.logged_in = false) :
    ((a.«open» fresh true).1 = .ok ()) ∧
    ((a.«open» fresh true).2.1.logged_in = true) ∧
    ((a.«open» fresh true).2.1.base.is_open = true) ∧
    ((a.«open» fresh false).1 = .error .httpError) ∧
    ((a.«open» fresh false).2.1.logged_in = false) ∧
    (∀ paths f r, (a.«open» fresh false).2.1.get paths f r
        = (.error .assertionError, (a.«open» fresh false).2.1, [])) ∧
    (∀ paths d f r, (a.«open» fresh false).2.1.post paths d f r
        = (.error .assertionError, (a.«open» fresh false).2.1, [])) := by
  cases hs : a.base.session <;>
    simp [AuthClient.«open», AuthClient.login, ClientBase.get_session, ClientBase.«open»,
      AuthClient.get, AuthClient.post, hs, h]

/-- C3 witness: concrete closed Web Backend; successful open marks it logged
in, failed open leaves it not logged in and its GET helper refuses with an
assertion error and no request. -/
theorem AuthClient.open_login_states_witness :
    (((AuthClient.init "h" none).«open» 7 true).2.1.logged_in = true) ∧
    (((AuthClient.init "h" none).«open» 7 false).2.1.logged_in = false) ∧
    (((AuthClient.init "h" none).«open» 7 false).2.1.get ["videoset"] 0 (some "x")
        = (.error .assertionError, ((AuthClient.init "h" none).«open» 7 false).2.1, [])) :=
  ⟨(AuthClient.open_login_states (AuthClient.init "h" none) 7 rfl).2.1,
   (AuthClient.open_login_states (AuthClient.init "h" none) 7 rfl).2.2.2.2.1,
   (AuthClient.open_login_states (AuthClient.init "h" none) 7 rfl).2.2.2.2.2.1
      ["videoset"] 0 (some "x")⟩

/-- C4: both `reboot()` and `restart()` first fetch the hostname and
propagate its failure; with the hostname precheck succeeding, `reboot()`
never raises regardless of the reboot trigger's outcome, while `restart()`
raises exactly when the restart trigger fails at the HTTP level. -/
theorem reboot_restart_error_policy (env : RestEnv) :
    (env (.get "hostname") = none →
      reboot env = .error .httpError ∧ restart env = .error .httpError) ∧
    (∀ h, env (.get "hostname") = some h → reboot env = .ok ()) ∧
    (∀ h, env (.get "hostname") = some h → env (.get "restart") = none →
      restart env = .error .httpError) ∧
    (∀ h r, env (.get "hostname") = some h → env (.get "restart") = some r →
      restart env = .ok ()) := by
  refine ⟨fun hh => ?_, fun h hh => ?_, fun h hh hr => ?_, fun h r hh hr => ?_⟩
  · simp [reboot, restart, get_hostname, restGet, hh]
  · cases hr : env (.get "reboot") <;>
      simp [reboot, get_hostname, restGet, hh, hr]
  · simp [restart, get_hostname, restGet, hh, hr]
  · simp [restart, get_hostname, restGet, hh, hr]

/-- C4 witness: with the device answering only `hostname`, reboot succeeds
despite the failing trigger, restart raises, and with the device fully down
both propagate the precheck failure. -/
theorem reboot_restart_error_policy_witness :
    reboot envHostnameOnly = .ok () ∧
    restart envHostnameOnly = .error .httpError ∧
    reboot envAllDown = .error .httpError :=
  ⟨(reboot_restart_error_policy envHostnameOnly).2.1 (.raw "birddog-a200") rfl,
   (reboot_restart_error_policy envHostnameOnly).2.2.1 (.raw "birddog-a200") rfl rfl,
   ((reboot_restart_error_policy envAllDown).1 rfl).1⟩

/-- C5: the Web Backend request helpers assert a prior successful login:
called while not logged in, both fail with an assertion error, leave the
state untouched and perform no network request. -/
theorem AuthClient.helpers_require_login (a : AuthClient) (paths : List String)
    (data : Option (List (String × FormValue))) (fresh : Nat)
    (respond : Option String) (h : a.logged_in = false) :
    a.get paths fresh respond = (.error .assertionError, a, []) ∧
    a.post paths data fresh respond = (.error .assertionError, a, []) := by
  simp [AuthClient.get, AuthClient.post, h]

/-- C5 witness: a freshly constructed (never logged in) Web Backend refuses
both helpers with an assertion error and an empty request trace. -/
theorem AuthClient.helpers_require_login_witness :
    (AuthClient.init "h" none).get ["videoset"] 0 (some "x")
        = (.error .assertionError, AuthClient.init "h" none, []) ∧
    (AuthClient.init "h" none).post ["videoset"] none 0 (some "x")
        = (.error .assertionError, AuthClient.init "h" none, []) :=
  AuthClient.helpers_require_login (AuthClient.init "h" none) ["videoset"] none 0 (some "x") rfl

/-- C10: a device response to `operationmode` whose mode string names no
OperationMode member — whether a JSON object carrying a `mode` key or raw
bytes — makes `get_operation_mode` raise (the `getattr` lookup fails with
AttributeError); and every successfully returned mode is exactly the one the
response named, never a default. -/
theorem get_operation_mode_rejects_unknown (env : RestEnv) :
    (∀ d m, env (.get "operationmode") = some (.jsonDict d) →
      d.lookup "mode" = some m → OperationMode.fromName? m = none →
      get_operation_mode env = .error .attributeError) ∧
    (∀ b, env (.get "operationmode") = some (.raw b) →
      OperationMode.fromName? b = none →
      get_operation_mode env = .error .attributeError) ∧
    (∀ om, get_operation_mode env = .ok om →
      env (.get "operationmode") = some (.raw om.name) ∨
      ∃ d, env (.get "operationmode") = some (.jsonDict d) ∧
        d.lookup "mode" = some om.name) := by
  refine ⟨fun d m hd hm hf => ?_, fun b hb hf => ?_, fun om hok => ?_⟩
  · simp [get_operation_mode, restGet, hd, hm, hf]
  · simp [get_operation_mode, restGet, hb, hf]
  · rcases he : env (.get "operationmode") with _ | c
    · simp [get_operation_mode, restGet, he] at hok
    · rcases c with d | b
      · rcases hl : d.lookup "mode" with _ | m
        · simp [get_operation_mode, restGet, he, hl] at hok
        · rcases hf : OperationMode.fromName? m with _ | om'
          · simp [get_operation_mode, restGet, he, hl, hf] at hok
          · have : om' = om := by
              simp [get_operation_mode, restGet, he, hl, hf] at hok
              exact hok
            subst this
            rw [← OperationMode.fromName_eq_name m om' hf]
            exact Or.inr ⟨d, rfl, hl⟩
      · rcases hf : OperationMode.fromName? b with _ | om'
        · simp [get_operation_mode, restGet, he, hf] at hok
        · have : om' = om := by
            simp [get_operation_mode, restGet, he, hf] at hok
            exact hok
          subst this
          rw [← OperationMode.fromName_eq_name b om' hf]
          exact Or.inl rfl

/-- C10 witness: the concrete mode string `turbo`, delivered in a JSON
object, makes `get_operation_mode` raise AttributeError. -/
theorem get_operation_mode_rejects_unknown_witness :
    get_operation_mode envBadMode = .error .attributeError :=
  (get_operation_mode_rejects_unknown envBadMode).1
    [("mode", "turbo")] "turbo" rfl rfl rfl

/-- Helper: the enumeration loop preserves length. -/
theorem mkSourceList_length (c : String) (m : List (String × String)) (i : Int) :
    (mkSourceList c m i).length = m.length := by
  induction m generalizing i with
  | nil => simp [mkSourceList]
  | cons hd tl ih => simp [mkSourceList, ih]

/-- Helper: the entry at position `k` of the enumeration is built from the
map pair at position `k`, with index `i + k`. -/
theorem mkSourceList_getElem? (c : String) (m : List (String × String)) (i : Int) (k : Nat) :
    (mkSourceList c m i)[k]? = m[k]?.map (fun p =>
      { name := p.1, address := some p.2, index := some (i + k),
        is_current := p.1 == c }) := by
  induction m generalizing i k with
  | nil => simp [mkSourceList]
  | cons hd tl ih =>
    cases k with
    | zero => simp [mkSourceList]
    | succ k' =>
      simp only [mkSourceList, List.getElem?_cons_succ, ih]
      cases h : tl[k']? with
      | none => simp
      | some p =>
        simp
        omega

/-- Helper: the enumeration flags as current exactly the map keys equal to
the current name. -/
theorem mkSourceList_countP (c : String) (m : List (String × String)) (i : Int) :
    (mkSourceList c m i).countP (fun s => s.is_current)
      = (m.map Prod.fst).countP (fun k => k == c) := by
  induction m generalizing i with
  | nil => simp [mkSourceList]
  | cons hd tl ih => simp [mkSourceList, List.countP_cons, ih]

/-- Helper: every entry of the enumeration carries an index in
`[i, i + length)`. -/
theorem mkSourceList_index_mem (c : String) (m : List (String × String)) (i : Int)
    (s : NdiSource) (hs : s ∈ mkSourceList c m i) :
    ∃ j : Int, s.index = some j ∧ i ≤ j ∧ j < i + m.length := by
  induction m generalizing i with
  | nil => simp [mkSourceList] at hs
  | cons hd tl ih =>
    simp only [mkSourceList, List.mem_cons] at hs
    rcases hs with rfl | hs
    · refine ⟨i, rfl, le_refl _, ?_⟩
      simp only [List.length_cons]
      push_cast
      omega
    · rcases ih (i + 1) hs with ⟨j, h1, h2, h3⟩
      refine ⟨j, h1, by omega, ?_⟩
      simp only [List.length_cons]
      push_cast
      omega

/-- Helper: looking an out-of-range index up in the enumeration finds
nothing. -/
theorem mkSourceList_find?_out_of_range (c : String) (m : List (String × String))
    (i j : Int) (h : j < i ∨ i + m.length ≤ j) :
    (mkSourceList c m i).find? (fun s => s.index == some j) = none := by
  apply List.find?_eq_none.mpr
  intro s hs
  rcases mkSourceList_index_mem c m i s hs with ⟨j', hj', h1, h2⟩
  simp [hj']
  omega

/-- Helper: looking an in-range index up in the enumeration finds exactly
the entry at the corresponding position. -/
theorem mkSourceList_find?_in_range (c : String) (m : List (String × String))
    (i j : Int) (h1 : i ≤ j) (h2 : j < i + m.length) :
    (mkSourceList c m i).find? (fun s => s.index == some j)
      = (mkSourceList c m i)[(j - i).toNat]? := by
  induction m generalizing i with
  | nil =>
    simp only [List.length_nil] at h2
    omega
  | cons hd tl ih =>
    by_cases hij : j = i
    · subst hij
      have hp : ((⟨hd.1, some hd.2, some j, hd.1 == c⟩ : NdiSource).index == some j) = true := by
        simp
      simp [mkSourceList, List.find?_cons_of_pos, hp]
    · have h1' : i + 1 ≤ j := by omega
      have h2' : j < (i + 1) + tl.length := by
        simp only [List.length_cons] at h2
        push_cast at h2 ⊢
        omega
      have htn : (j - i).toNat = (j - (i + 1)).toNat + 1 := by omega
      simp only [mkSourceList]
      rw [List.find?_cons_of_neg, ih (i + 1) h1' h2', htn,
        List.getElem?_cons_succ]
      simp
      omega

/-- C6: for every device source map and current-source name, the sources
listing enumerates the map keys in order with 0-based indices, and exactly
one entry is flagged current when the current name is a key of the map
(matched by name equality), zero entries otherwise. -/
theorem list_sources_spec (env : RestEnv) (d m : List (String × String)) (cname : String)
    (hcur : env (.get "connectTo") = some (.jsonDict d))
    (hname : d.lookup "sourceName" = some cname)
    (hmap : env (.get "List") = some (.jsonDict m))
    (hnd : (m.map Prod.fst).Nodup) :
    list_sources env = .ok (mkSourceList cname m 0) ∧
    (mkSourceList cname m 0).length = m.length ∧
    (∀ k : Nat, (mkSourceList cname m 0)[k]? = m[k]?.map (fun p =>
      { name := p.1, address := some p.2, index := some (k : Int),
        is_current := p.1 == cname })) ∧
    (mkSourceList cname m 0).countP (fun s => s.is_current)
      = if cname ∈ m.map Prod.fst then 1 else 0 := by
  refine ⟨?_, mkSourceList_length cname m 0, ?_, ?_⟩
  · simp [list_sources, get_source, restGet, hcur, hname, hmap]
  · intro k
    simpa using mkSourceList_getElem? cname m 0 k
  · rw [mkSourceList_countP]
    rw [show (fun k => k == cname) = (· == cname) from rfl, ← List.count_eq_countP]
    by_cases hmem : cname ∈ m.map Prod.fst
    · simp [hmem, List.count_eq_one_of_mem hnd hmem]
    · simp [hmem, List.count_eq_zero.mpr hmem]

/-- C6 witness: concrete three-source map with current source `CamB`;
the listing succeeds with indices 0, 1, 2 and exactly one current flag. -/
theorem list_sources_spec_witness :
    list_sources envSources = .ok (mkSourceList "CamB"
      [("CamA", "10.0.0.1"), ("CamB", "10.0.0.2"), ("CamC", "10.0.0.3")] 0) ∧
    (mkSourceList "CamB"
      [("CamA", "10.0.0.1"), ("CamB", "10.0.0.2"), ("CamC", "10.0.0.3")] 0).countP
        (fun s => s.is_current) = 1 :=
  ⟨(list_sources_spec envSources [("sourceName", "CamB")]
      [("CamA", "10.0.0.1"), ("CamB", "10.0.0.2"), ("CamC", "10.0.0.3")] "CamB"
      rfl rfl rfl (by decide)).1,
   (list_sources_spec envSources [("sourceName", "CamB")]
      [("CamA", "10.0.0.1"), ("CamB", "10.0.0.2"), ("CamC", "10.0.0.3")] "CamB"
      rfl rfl rfl (by decide)).2.2.2⟩

/-- C7: `set_source` with an in-range integer index resolves to exactly the
source `list_sources` reports at that position and posts that source's name
to `connectTo`; with an out-of-range index it raises a KeyError and issues
no POST. -/
theorem set_source_index_spec (env : RestEnv) (d m : List (String × String))
    (cname : String) (i : Int)
    (hcur : env (.get "connectTo") = some (.jsonDict d))
    (hname : d.lookup "sourceName" = some cname)
    (hmap : env (.get "List") = some (.jsonDict m)) :
    (∀ s : NdiSource, 0 ≤ i → i < m.length →
      (mkSourceList cname m 0)[i.toNat]? = some s →
      list_sources env = .ok (mkSourceList cname m 0) ∧
      (set_source env (.int i)).2 = some [("sourceName", s.name)]) ∧
    ((i < 0 ∨ (m.length : Int) ≤ i) →
      set_source env (.int i) = (.error .keyError, none)) := by
  have hls : list_sources env = .ok (mkSourceList cname m 0) := by
    simp [list_sources, get_source, restGet, hcur, hname, hmap]
  constructor
  · intro s h0 hlt hget
    refine ⟨hls, ?_⟩
    have hf : (mkSourceList cname m 0).find? (fun x => x.index == some i) = some s := by
      rw [mkSourceList_find?_in_range cname m 0 i h0 (by omega)]
      simpa using hget
    rcases hp : env (.post "connectTo" [("sourceName", s.name)]) with _ | c <;>
      simp [set_source, hls, hf, restPost, hp]
  · intro hout
    have hf : (mkSourceList cname m 0).find? (fun x => x.index == some i) = none :=
      mkSourceList_find?_out_of_range cname m 0 i (by omega)
    simp [set_source, hls, hf]

/-- C7 witness: with the concrete three-source map, index 1 resolves to
`CamB` (the entry the listing reports at position 1) and posts its name;
index 5 fails with a KeyError and no POST. -/
theorem set_source_index_spec_witness :
    (set_source envSources (.int 1)).2 = some [("sourceName", "CamB")] ∧
    set_source envSources (.int 5) = (.error .keyError, none) :=
  ⟨((set_source_index_spec envSources [("sourceName", "CamB")]
      [("CamA", "10.0.0.1"), ("CamB", "10.0.0.2"), ("CamC", "10.0.0.3")] "CamB" 1
      rfl rfl rfl).1
      ⟨"CamB", some "10.0.0.2", some 1, true⟩
      (by decide) (by decide) (by decide)).2,
   (set_source_index_spec envSources [("sourceName", "CamB")]
      [("CamA", "10.0.0.1"), ("CamB", "10.0.0.2"), ("CamC", "10.0.0.3")] "CamB" 5
      rfl rfl rfl).2 (by decide)⟩

/-- C8: both proxied write operations submit the full five-field settings
form: each field of the freshly fetched settings is serialized, with only
the targeted field replaced by the new value and every other field
unchanged. -/
theorem set_ops_submit_full_form (page : VideosetPage) (audio : AudioOutputSetup)
    (mode : OperationMode) (vout : VideoOutput) (st : DeviceSettings)
    (h : scrape_settings page audio = .ok st) :
    AuthClient.set_operation_mode page audio mode =
      .ok [ ("mode", .s mode.name),
            ("vid12g_loop_if", .s st.video_output.name),
            ("AnalogAudioInGain", .i st.audio_setup.input_gain),
            ("AnalogAudioOutGain", .i st.audio_setup.output_gain),
            ("AnalogAudiooutputselect", .s st.audio_setup.output_select.name) ] ∧
    AuthClient.set_video_output page audio vout =
      .ok [ ("mode", .s st.operation_mode.name),
            ("vid12g_loop_if", .s vout.name),
            ("AnalogAudioInGain", .i st.audio_setup.input_gain),
            ("AnalogAudioOutGain", .i st.audio_setup.output_gain),
            ("AnalogAudiooutputselect", .s st.audio_setup.output_select.name) ] := by
  constructor <;>
    simp [AuthClient.set_operation_mode, AuthClient.set_video_output, h,
      DeviceSettings.to_form_data]

/-- C8 witness: a concrete page (decode and hdmi checked) and audio setup;
setting the mode to encode posts the full form with the other four fields
carried over unchanged, and likewise for setting the output to sdi. -/
theorem set_ops_submit_full_form_witness :
    AuthClient.set_operation_mode (VideosetPage.mk false true false true)
        (AudioOutputSetup.mk 50 75 .DecodeMain) .encode =
      .ok [ ("mode", .s "encode"), ("vid12g_loop_if", .s "hdmi"),
            ("AnalogAudioInGain", .i 50), ("AnalogAudioOutGain", .i 75),
            ("AnalogAudiooutputselect", .s "DecodeMain") ] ∧
    AuthClient.set_video_output (VideosetPage.mk false true false true)
        (AudioOutputSetup.mk 50 75 .DecodeMain) .sdi =
      .ok [ ("mode", .s "decode"), ("vid12g_loop_if", .s "sdi"),
            ("AnalogAudioInGain", .i 50), ("AnalogAudioOutGain", .i 75),
            ("AnalogAudiooutputselect", .s "DecodeMain") ] :=
  set_ops_submit_full_form (VideosetPage.mk false true false true)
    (AudioOutputSetup.mk 50 75 .DecodeMain) .encode .sdi
    (DeviceSettings.mk .decode .hdmi (AudioOutputSetup.mk 50 75 .DecodeMain)) rfl

/-- C1 counterexample: on a unified client that was never opened (so no Web
Backend companion exists), a proxied call does not create a companion and
does not delegate — it raises AttributeError (`None.is_open`) immediately,
with no request issued, refuting the claim that the proxied call succeeds in
delegating in that situation. -/
theorem proxy_without_companion_counterexample :
    (ApiClient.init "192.168.0.1" none).proxy_through_auth_client 0 true refreshDelegate
      = (.error .attributeError, ApiClient.init "192.168.0.1" none, []) := by
  rfl

/-- C1 (amended): the Web Backend companion is created by the unified
client's `open()` — bound to the same base host and sharing the same session
without owning it — not by the proxied call itself; a proxied call on an
existing companion that is not open first opens (and thus logs in) the
companion and delegates only when the login succeeds, while an already-open
companion is delegated to directly; with no companion (client never opened)
the proxied call raises AttributeError instead of delegating. -/
theorem proxy_lazy_login {α : Type} (host : String) (session : Option Nat)
    (fresh fresh2 : Nat) (c : ApiClient) (ac : AuthClient)
    (m : AuthClient → Except PyError α × AuthClient × List Event)
    (hc : c.auth_client = some ac) :
    (∃ ac0, ((ApiClient.init host session).«open» fresh).auth_client = some ac0 ∧
      ac0.base.host = ((ApiClient.init host session).«open» fresh).base.host ∧
      ac0.base.session = ((ApiClient.init host session).«open» fresh).base.session ∧
      ac0.base.session.isSome = true ∧
      ac0.base.owns_session = false ∧
      ac0.base.is_open = false ∧ ac0.logged_in = false) ∧
    (ac.base.is_open = false →
      (c.proxy_through_auth_client fresh2 false m
        = (.error .httpError, { c with auth_client := some (ac.«open» fresh2 false).2.1 },
           [.loginPost ac.password])) ∧
      (∀ ac1, (ac.«open» fresh2 true).2.1 = ac1 →
        ac1.logged_in = true ∧
        c.proxy_through_auth_client fresh2 true m
          = ((m ac1).1, { c with auth_client := some (m ac1).2.1 },
             .loginPost ac.password :: (m ac1).2.2))) ∧
    (ac.base.is_open = true →
      c.proxy_through_auth_client fresh2 true m
        = ((m ac).1, { c with auth_client := some (m ac).2.1 }, (m ac).2.2)) ∧
    (∀ c0 : ApiClient, c0.auth_client = none →
      c0.proxy_through_auth_client fresh2 true m = (.error .attributeError, c0, [])) := by
  refine ⟨?_, fun hno => ⟨?_, fun ac1 hac1 => ⟨?_, ?_⟩⟩, fun hyes => ?_, fun c0 h0 => ?_⟩
  · refine ⟨AuthClient.init host (some (session.getD fresh)), ?_⟩
    cases session <;>
      simp [ApiClient.init, ApiClient.«open», ClientBase.init, ClientBase.get_session,
        ClientBase.«open», AuthClient.init, Option.getD]
  · cases hs : ac.base.session <;>
      simp [ApiClient.proxy_through_auth_client, hc, hno, AuthClient.«open»,
        AuthClient.login, ClientBase.get_session, ClientBase.«open», hs]
  · subst hac1
    cases hs : ac.base.session <;>
      simp [AuthClient.«open», AuthClient.login, ClientBase.get_session,
        ClientBase.«open», hs]
  · subst hac1
    cases hs : ac.base.session <;>
      simp [ApiClient.proxy_through_auth_client, hc, hno, AuthClient.«open»,
        AuthClient.login, ClientBase.get_session, ClientBase.«open», hs]
  · simp [ApiClient.proxy_through_auth_client, hc, hyes]
  · simp [ApiClient.proxy_through_auth_client, h0]

/-- C1 witness: a freshly opened unified client has a companion on the same
host sharing session id 3; the first proxied call on it logs the companion
in before delegating the refresh request. -/
theorem proxy_lazy_login_witness :
    (((ApiClient.init "h" none).«open» 3).proxy_through_auth_client 5 true refreshDelegate).2.2
      = [.loginPost "birddog",
         .webPost "h/videoset" (some [("add_new_sources", .s "new_sources")])] := by
  have h := (proxy_lazy_login "h" none 3 5 ((ApiClient.init "h" none).«open» 3)
    (AuthClient.init "h" (some 3)) refreshDelegate rfl).2.1 rfl
  rw [(h.2 _ rfl).2]
  rfl

/-- C9: closing a unified client whose companion Web Backend is open and
logged in first attempts the logout, then — whether or not the logout
succeeded — releases the client's own (shared, internally owned) session:
the trace is exactly the logout POST followed by the session release, the
companion reference is dropped, and the overall call reports the logout
failure, if any, only after the release. -/
theorem close_logout_before_release (c : ApiClient) (ac : AuthClient) (sid : Nat)
    (fresh : Nat) (logoutOk acf : Bool)
    (hc : c.auth_client = some ac)
    (hopen : ac.base.is_open = true)
    (hauth : ac.logged_in = true)
    (hshared : ac.base.owns_session = false)
    (hacsess : ac.base.session = some sid)
    (hsess : c.base.session = some sid)
    (howns : c.base.owns_session = true) :
    (c.close fresh logoutOk acf false).2.2 = [Event.logoutPost, Event.aclose sid] ∧
    (c.close fresh logoutOk acf false).2.1.auth_client = none ∧
    (c.close fresh logoutOk acf false).2.1.base.session = none ∧
    (c.close fresh logoutOk acf false).1
      = (if logoutOk then .ok () else .error .httpError) := by
  cases logoutOk <;>
    simp [ApiClient.close, AuthClient.close, AuthClient.logout, ClientBase.get_session,
      ClientBase.close, hc, hopen, hauth, hshared, hacsess, hsess, howns]

/-- C9 witness: on the concrete client with an open, logged-in companion,
even a failing logout leaves the trace logout-then-release, with the session
released and the logout error reported afterwards. -/
theorem close_logout_before_release_witness :
    (apiClientWithOpenCompanion.close 9 false false false).2.2
        = [Event.logoutPost, Event.aclose 0] ∧
    (apiClientWithOpenCompanion.close 9 false false false).2.1.base.session = none ∧
    (apiClientWithOpenCompanion.close 9 false false false).1 = .error .httpError :=
  ⟨(close_logout_before_release apiClientWithOpenCompanion
      { base := ClientBase.mk "h" none (some 0) false true,
        password := "birddog", settings := none, logged_in := true }
      0 9 false false rfl rfl rfl rfl rfl rfl rfl).1,
   (close_logout_before_release apiClientWithOpenCompanion
      { base := ClientBase.mk "h" none (some 0) false true,
        password := "birddog", settings := none, logged_in := true }
      0 9 false false rfl rfl rfl rfl rfl rfl rfl).2.2.1,
   (close_logout_before_release apiClientWithOpenCompanion
      { base := ClientBase.mk "h" none (some 0) false true,
        password := "birddog", settings := none, logged_in := true }
      0 9 false false rfl rfl rfl rfl rfl rfl rfl).2.2.2⟩

end Birddog
